import Mathlib

/-
Verification development for the MotionAI rehabilitation-coach core.

The repository's real-time pose-evaluation loop lives in the richer
TrainingView component (the second module concatenated into
src/components/ReportView.tsx), the simpler TrainingView component
(src/components/TrainingView.tsx), and the geometry helpers in
src/services/visionService.ts.  Those are embedded shallowly below:
numbers become exact rationals, clock instants become integers
(milliseconds), React useRef cells become fields of an explicit state
record, and the transcendental float primitives Math.atan2 / Math.PI /
Math.hypot — whose numeric values no claim depends on — are supplied as
an explicit parameter record so every definition stays executable.

The enhanced session-statistics layer (poseAnalyses recording,
ErrorPatterns counters, the PerformanceMetrics aggregator) is declared
in src/unnamed/part_003 and consumed by the report services, but the
component that computes it is not among the source files; those
definitions are modelled from the spec and are marked as such.
-/

/-- Session status of the training component (IDLE / ACTIVE / COMPLETED). -/
inductive Status
  | IDLE
  | ACTIVE
  | COMPLETED
deriving DecidableEq, Repr

/-- A MediaPipe body landmark: normalized planar position, depth,
visibility confidence (src/types.ts, interface Landmark). -/
structure Landmark where
  x : ℚ
  y : ℚ
  z : ℚ
  visibility : ℚ
deriving DecidableEq, Repr

/-- One detected pose: the fixed 33-point landmark array, modelled as a
total function from the landmark index. -/
def Frame : Type := Nat → Landmark

/-- The transcendental float primitives used by the geometry code
(Math.atan2, Math.PI, Math.hypot).  No claim in this development depends
on their numeric values, so they are passed as an explicit parameter,
which keeps every definition computable; theorems quantify over them. -/
structure GeomPrims where
  atan2 : ℚ → ℚ → ℚ
  piVal : ℚ
  hypot : ℚ → ℚ → ℚ

/-- POSE_LANDMARKS.NOSE (src/types.ts). -/
def NOSE : Nat := 0
/-- POSE_LANDMARKS.LEFT_EAR. -/
def LEFT_EAR : Nat := 7
/-- POSE_LANDMARKS.RIGHT_EAR. -/
def RIGHT_EAR : Nat := 8
/-- POSE_LANDMARKS.LEFT_SHOULDER. -/
def LEFT_SHOULDER : Nat := 11
/-- POSE_LANDMARKS.RIGHT_SHOULDER. -/
def RIGHT_SHOULDER : Nat := 12
/-- POSE_LANDMARKS.LEFT_ELBOW. -/
def LEFT_ELBOW : Nat := 13
/-- POSE_LANDMARKS.RIGHT_ELBOW. -/
def RIGHT_ELBOW : Nat := 14
/-- POSE_LANDMARKS.LEFT_WRIST. -/
def LEFT_WRIST : Nat := 15
/-- POSE_LANDMARKS.RIGHT_WRIST. -/
def RIGHT_WRIST : Nat := 16
/-- POSE_LANDMARKS.LEFT_HIP. -/
def LEFT_HIP : Nat := 23
/-- POSE_LANDMARKS.RIGHT_HIP. -/
def RIGHT_HIP : Nat := 24

/-- The guarded three-point angle (src/services/visionService.ts, second
module, calculateAngle): if any of a, b, c is missing the sentinel 0 is
returned; otherwise the atan2 bearing difference is converted to degrees
and reduced to the range 0..180. -/
def calculateAngle (P : GeomPrims) (a b c : Option Landmark) : ℚ :=
  match a, b, c with
  | some a, some b, some c =>
    let radians := P.atan2 (c.y - b.y) (c.x - b.x) - P.atan2 (a.y - b.y) (a.x - b.x)
    let angle := |radians * 180 / P.piVal|
    if angle > 180 then 360 - angle else angle
  | _, _, _ => 0

/-- Torso alignment (src/services/visionService.ts, first module,
checkTorsoAlignment): horizontal deviation between the shoulder midpoint
and the hip midpoint; missing landmarks default to aligned with zero
error.  Returns (aligned, deviation). -/
def checkTorsoAlignment (lm : Nat → Option Landmark) : Bool × ℚ :=
  match lm 11, lm 12, lm 23, lm 24 with
  | some ls, some rs, some lh, some rh =>
    let shoulderMidX := (ls.x + rs.x) / 2
    let hipMidX := (lh.x + rh.x) / 2
    let deviation := |shoulderMidX - hipMidX|
    (decide (deviation < (1 : ℚ)/10), deviation)
  | _, _, _, _ => (true, 0)

/-- ExerciseType (src/types.ts). -/
inductive ExerciseType
  | SHOULDER_ABDUCTION
  | STANDING_W_EXTENSION
  | SQUAT
  | TOUCH_EAR
  | BOBATH_HAND_CLASP
  | WRIST_ROTATION
deriving DecidableEq, Repr

/-- The mutable state of the richer TrainingView component (the second
module of src/components/ReportView.tsx): every React state/ref cell the
frame-processing path reads or writes. -/
structure TState where
  status : Status
  scoreR : ℚ
  correctionsR : ℕ
  feedbackLog : List String
  lastSpokenTime : ℤ
  bobathHoldStart : Option ℤ
  lastBobathSuccess : ℤ
  wHoldStart : Option ℤ
  lastWSuccess : ℤ
  lastWristPos : Option (ℚ × ℚ)
  motionAccumulator : ℚ
  lastMotionCheckTime : ℤ
  feedback : String
  debugAngle : ℤ
deriving DecidableEq, Repr

/-- JavaScript Math.round: round half toward positive infinity. -/
def jsRound (q : ℚ) : ℤ := Int.floor (q + 1/2)

/-- Helper for the substring test: whether sub occurs inside the given
character list. -/
def containsSubList (sub : List Char) : List Char → Bool
  | [] => sub.isEmpty
  | c :: cs => sub.isPrefixOf (c :: cs) || containsSubList sub cs

/-- JavaScript String.prototype.includes, modelled structurally over the
character lists. -/
def containsSub (sub text : String) : Bool := containsSubList sub.toList text.toList

/-- Whether a feedback text contains the countdown marker character used
by speak's isCountdown test (text.includes with the seconds character). -/
def containsSec (text : String) : Bool := containsSub ("秒") text

/-- Whether a feedback text contains the hold marker tested by the
non-error feedback path (localFeedback.includes of the hold phrase). -/
def containsHold (text : String) : Bool := containsSub ("保持住") text

/-- speak (ReportView.tsx second module, lines 375-392): rate-limited
speech.  Returns whether the text was actually spoken, together with the
updated state; countdown texts use a 900 ms throttle and are not pushed
onto the feedback log, other texts use a 3000 ms throttle unless forced. -/
def speak (now : ℤ) (text : String) (force : Bool) (s : TState) : Bool × TState :=
  let isCountdown := containsSec text
  if force = false ∧ isCountdown = false ∧ now - s.lastSpokenTime < 3000 then
    (false, s)
  else if isCountdown = true ∧ now - s.lastSpokenTime < 900 then
    (false, s)
  else
    (true,
      { s with
        lastSpokenTime := now
        feedbackLog := if isCountdown then s.feedbackLog else s.feedbackLog ++ [text] })

/-- Result of the per-frame classification: the error verdict, the local
feedback text, and the state after the classification's own ref updates
(hold timers, motion tracking, forced success announcements). -/
structure ClassifyOut where
  isError : Bool
  localFeedback : String
  st : TState
deriving Repr

/-- SHOULDER_ABDUCTION branch of processLandmarks (ReportView.tsx second
module): single hip-shoulder-elbow angle with bounds 70 and 115. -/
def classifyShoulder (P : GeomPrims) (f : Frame) (s : TState) : ClassifyOut :=
  let angle := calculateAngle P (some (f LEFT_HIP)) (some (f LEFT_SHOULDER)) (some (f LEFT_ELBOW))
  let s := { s with debugAngle := jsRound angle }
  if angle < 70 then ⟨true, "手臂抬高一点！", s⟩
  else if angle > 115 then ⟨true, "太高了，放低一点！", s⟩
  else ⟨false, "姿势标准", s⟩

/-- STANDING_W_EXTENSION branch of processLandmarks: dual angle
constraints (elbow flexion and arm-torso), a 10-second hold timer and a
forced per-success announcement throttled by an 8-second gap. -/
def classifyW (P : GeomPrims) (now : ℤ) (f : Frame) (s : TState) : ClassifyOut :=
  let lElbowAngle := calculateAngle P (some (f LEFT_SHOULDER)) (some (f LEFT_ELBOW)) (some (f LEFT_WRIST))
  let rElbowAngle := calculateAngle P (some (f RIGHT_SHOULDER)) (some (f RIGHT_ELBOW)) (some (f RIGHT_WRIST))
  let lArmBodyAngle := calculateAngle P (some (f LEFT_HIP)) (some (f LEFT_SHOULDER)) (some (f LEFT_ELBOW))
  let rArmBodyAngle := calculateAngle P (some (f RIGHT_HIP)) (some (f RIGHT_SHOULDER)) (some (f RIGHT_ELBOW))
  let s := { s with debugAngle := jsRound ((lElbowAngle + rElbowAngle) / 2) }
  if ¬ (lElbowAngle > 100 ∧ lElbowAngle < 150 ∧ rElbowAngle > 100 ∧ rElbowAngle < 150) then
    ⟨true, "屈肘角度不对，保持约120度", { s with wHoldStart := none }⟩
  else if ¬ (lArmBodyAngle > 40 ∧ lArmBodyAngle < 85 ∧ rArmBodyAngle > 40 ∧ rArmBodyAngle < 85) then
    ⟨true, "调整双臂打开幅度 (60度)", { s with wHoldStart := none }⟩
  else
    let s := if s.wHoldStart = none then { s with wHoldStart := some now } else s
    let heldDuration : ℚ := ((now : ℚ) - ((s.wHoldStart.getD now : ℤ) : ℚ)) / 1000
    if heldDuration < 10 then
      ⟨false, "很好，收紧肩胛... " ++ toString (Int.ceil (10 - heldDuration)) ++ "秒", s⟩
    else
      if now - s.lastWSuccess > 8000 then
        let s := { s with lastWSuccess := now }
        let s := (speak now ("完成一组，放松") true s).2
        ⟨false, "非常棒！放松一下", { s with wHoldStart := none }⟩
      else
        ⟨false, "非常棒！放松一下", s⟩

/-- TOUCH_EAR branch of processLandmarks: level-shoulders gate, then a
wrist-to-opposite-ear proximity check that is coaching only. -/
def classifyTouchEar (P : GeomPrims) (f : Frame) (s : TState) : ClassifyOut :=
  if |(f LEFT_SHOULDER).y - (f RIGHT_SHOULDER).y| > (4 : ℚ)/100 then
    ⟨true, "不要耸肩，沉肩坠肘", s⟩
  else
    let distL := P.hypot ((f LEFT_WRIST).x - (f RIGHT_EAR).x) ((f LEFT_WRIST).y - (f RIGHT_EAR).y)
    let distR := P.hypot ((f RIGHT_WRIST).x - (f LEFT_EAR).x) ((f RIGHT_WRIST).y - (f LEFT_EAR).y)
    if distL < (15 : ℚ)/100 ∨ distR < (15 : ℚ)/100 then
      ⟨false, "很好，保持住", s⟩
    else
      ⟨false, "加油，手去摸对侧耳朵", s⟩

/-- BOBATH_HAND_CLASP branch of processLandmarks: clasp proximity,
straight elbows, overhead wrists; a 5-second hold timer and a forced
per-success announcement throttled by a 5-second gap. -/
def classifyBobath (P : GeomPrims) (now : ℤ) (f : Frame) (s : TState) : ClassifyOut :=
  let wristDist := P.hypot ((f LEFT_WRIST).x - (f RIGHT_WRIST).x) ((f LEFT_WRIST).y - (f RIGHT_WRIST).y)
  let leftArmAngle := calculateAngle P (some (f LEFT_SHOULDER)) (some (f LEFT_ELBOW)) (some (f LEFT_WRIST))
  let rightArmAngle := calculateAngle P (some (f RIGHT_SHOULDER)) (some (f RIGHT_ELBOW)) (some (f RIGHT_WRIST))
  let s := { s with debugAngle := jsRound ((leftArmAngle + rightArmAngle) / 2) }
  if ¬ (wristDist < (15 : ℚ)/100) then
    ⟨true, "双手十指相扣，握紧！", { s with bobathHoldStart := none }⟩
  else if ¬ (leftArmAngle > 150 ∧ rightArmAngle > 150) then
    ⟨true, "用力伸直手肘！", { s with bobathHoldStart := none }⟩
  else if ¬ ((f LEFT_WRIST).y < (f NOSE).y ∧ (f RIGHT_WRIST).y < (f NOSE).y) then
    ⟨true, "举高！把手举过头顶", { s with bobathHoldStart := none }⟩
  else
    let s := if s.bobathHoldStart = none then { s with bobathHoldStart := some now } else s
    let heldDuration : ℚ := ((now : ℚ) - ((s.bobathHoldStart.getD now : ℤ) : ℚ)) / 1000
    if heldDuration < 5 then
      ⟨false, "很好，保持住... " ++ toString (Int.ceil (5 - heldDuration)) ++ "秒", s⟩
    else
      if now - s.lastBobathSuccess > 5000 then
        let s := { s with lastBobathSuccess := now }
        let s := (speak now ("完成一次，非常棒！放下休息") true s).2
        ⟨false, "非常棒！慢慢放下，休息一下", { s with bobathHoldStart := none }⟩
      else
        ⟨false, "非常棒！慢慢放下，休息一下", s⟩

/-- WRIST_ROTATION branch of processLandmarks: clasp and chest-level
gates, then time-phased rotation instructions plus an advisory motion
check (the motion prompt is only spoken while ACTIVE and is not an
error). -/
def classifyWrist (P : GeomPrims) (durationSec timeLeft now : ℤ) (f : Frame) (s : TState) : ClassifyOut :=
  let wristDist := P.hypot ((f LEFT_WRIST).x - (f RIGHT_WRIST).x) ((f LEFT_WRIST).y - (f RIGHT_WRIST).y)
  if ¬ (wristDist < (15 : ℚ)/100) then
    ⟨true, "双手合掌，指尖相对！", s⟩
  else if ¬ ((f LEFT_WRIST).y > (f NOSE).y ∧ (f LEFT_WRIST).y < (f LEFT_HIP).y) then
    ⟨true, "把手放在胸前位置", s⟩
  else
    let elapsedTime := durationSec - timeLeft
    let phase := (Int.floor ((elapsedTime : ℚ) / 15)) % 2
    let direction := if phase = 0 then "顺时针" else "逆时针"
    let s :=
      match s.lastWristPos with
      | some p =>
        { s with motionAccumulator :=
            s.motionAccumulator + P.hypot ((f LEFT_WRIST).x - p.1) ((f LEFT_WRIST).y - p.2) }
      | none => s
    let s := { s with lastWristPos := some ((f LEFT_WRIST).x, (f LEFT_WRIST).y) }
    let s :=
      if now - s.lastMotionCheckTime > 1000 then
        let s :=
          if s.motionAccumulator < (5 : ℚ)/100 ∧ s.status = Status.ACTIVE then
            (speak now ("请转动您的手腕") false s).2
          else s
        { s with motionAccumulator := 0, lastMotionCheckTime := now }
      else s
    ⟨false, "很好，保持" ++ direction ++ "转动", s⟩

/-- Per-frame classification of processLandmarks (ReportView.tsx second
module, lines 509-716): the torso gate first (with the W-extension
exemption), then dispatch on the exercise identifier.  SQUAT has no
branch in the source and falls through with the default verdict. -/
def classify (P : GeomPrims) (ex : ExerciseType) (durationSec timeLeft now : ℤ)
    (f : Frame) (s : TState) : ClassifyOut :=
  let ta := checkTorsoAlignment (fun i => some (f i))
  if ta.1 = false ∧ ta.2 > (15 : ℚ)/100 ∧ ex ≠ ExerciseType.STANDING_W_EXTENSION then
    ⟨true, "身体歪了，保持背部挺直！", s⟩
  else
    match ex with
    | ExerciseType.SHOULDER_ABDUCTION => classifyShoulder P f s
    | ExerciseType.STANDING_W_EXTENSION => classifyW P now f s
    | ExerciseType.SQUAT => ⟨false, "姿势标准", s⟩
    | ExerciseType.TOUCH_EAR => classifyTouchEar P f s
    | ExerciseType.BOBATH_HAND_CLASP => classifyBobath P now f s
    | ExerciseType.WRIST_ROTATION => classifyWrist P durationSec timeLeft now f s

/-- The apply-feedback tail of processLandmarks (ReportView.tsx second
module, lines 718-742): on an error, speak (throttled) and, only when
the speech actually went through while ACTIVE, vibrate, bump the
correction counter and deduct 2 score points clamped at 0; on a
non-error, refresh the banner and speak hold countdowns while ACTIVE. -/
def applyFeedback (now : ℤ) (isError : Bool) (localFeedback : String) (s : TState) : TState :=
  if isError then
    let s := { s with feedback := localFeedback }
    if s.status = Status.ACTIVE then
      let sp := speak now localFeedback false s
      if sp.1 then
        let s := sp.2
        let s := { s with correctionsR := s.correctionsR + 1 }
        { s with scoreR := max 0 (s.scoreR - 2) }
      else sp.2
    else s
  else
    let s := { s with feedback := if localFeedback = ("姿势标准") then ("姿势标准 ✅") else localFeedback }
    if s.status = Status.ACTIVE ∧ containsHold localFeedback = true then
      let piece := (localFeedback.splitOn ("...")).getD 1 ("")
      (speak now (if piece = ("") then ("保持") else piece) false s).2
    else s

/-- Outcome record of processLandmarks. -/
structure PLResult where
  isError : Bool
  feedbackMsg : String
deriving DecidableEq, Repr

/-- processLandmarks of the richer TrainingView (ReportView.tsx second
module): the no-detection guard, the classification, then the
apply-feedback tail. -/
def processLandmarks (P : GeomPrims) (ex : ExerciseType) (durationSec timeLeft now : ℤ)
    (res : Option Frame) (s : TState) : PLResult × TState :=
  match res with
  | none => (⟨false, "未检测到人体"⟩, s)
  | some f =>
    let c := classify P ex durationSec timeLeft now f s
    (⟨c.isError, c.localFeedback⟩, applyFeedback now c.isError c.localFeedback c.st)

/-- WorkoutSession as emitted by handleFinish (src/types.ts first
module). -/
structure WorkoutSession where
  id : String
  exerciseId : ExerciseType
  timestamp : ℤ
  duration : ℤ
  accuracyScore : ℚ
  correctionCount : ℕ
  feedbackLog : List String
deriving DecidableEq, Repr

/-- handleFinish of the richer TrainingView (ReportView.tsx second
module, lines 489-507): capture the refs, flip the status, make the
forced completion announcement (which pushes onto the shared feedback
log before the session object is consumed), and emit the session. -/
def handleFinish (ex : ExerciseType) (durationSec now timeLeft : ℤ) (s : TState) :
    WorkoutSession × TState :=
  let finalScore := s.scoreR
  let finalCorrections := s.correctionsR
  let s := { s with status := Status.COMPLETED }
  let s := (speak now ("训练完成。非常棒！") true s).2
  ({ id := toString now
     exerciseId := ex
     timestamp := now
     duration := durationSec - timeLeft
     accuracyScore := finalScore
     correctionCount := finalCorrections
     feedbackLog := s.feedbackLog }, s)

/-- One frame delivered to the processing loop, together with the status
and countdown the component holds when the frame arrives. -/
structure FrameEvent where
  status : Status
  timeLeft : ℤ
  now : ℤ
  res : Option Frame

/-- Processing one frame event: the loop reads the current status from
the ref, then runs processLandmarks. -/
def stepEvent (P : GeomPrims) (ex : ExerciseType) (durationSec : ℤ) (s : TState)
    (e : FrameEvent) : TState :=
  (processLandmarks P ex durationSec e.timeLeft e.now e.res { s with status := e.status }).2

/-- Folding a whole sequence of frame events through the component. -/
def runEvents (P : GeomPrims) (ex : ExerciseType) (durationSec : ℤ)
    (s : TState) (es : List FrameEvent) : TState :=
  es.foldl (stepEvent P ex durationSec) s

/-- The component's initial state: score 100, no corrections, empty log,
all timers clear (ReportView.tsx second module, useState/useRef
initialisers). -/
def initState : TState :=
  { status := Status.IDLE
    scoreR := 100
    correctionsR := 0
    feedbackLog := []
    lastSpokenTime := 0
    bobathHoldStart := none
    lastBobathSuccess := 0
    wHoldStart := none
    lastWSuccess := 0
    lastWristPos := none
    motionAccumulator := 0
    lastMotionCheckTime := 0
    feedback := "正在启动摄像头..."
    debugAngle := 0 }

/-- The mutable state of the simpler TrainingView component
(src/components/TrainingView.tsx): speech throttle, log, score and
correction counter. -/
structure TvState where
  status : Status
  score : ℚ
  corrections : ℕ
  feedbackLog : List String
  lastSpokenTime : ℤ
  feedback : String
deriving DecidableEq, Repr

/-- speak of the simpler TrainingView (TrainingView.tsx lines 55-66):
3-second throttle, no force flag, no return value; when it goes through
it records the text on the feedback log. -/
def tvSpeak (now : ℤ) (text : String) (s : TvState) : TvState :=
  if now - s.lastSpokenTime < 3000 then s
  else { s with lastSpokenTime := now, feedbackLog := s.feedbackLog ++ [text] }

/-- The apply-feedback tail of the simpler TrainingView's
processLandmarks (TrainingView.tsx lines 277-291): on an ACTIVE error it
speaks (internally throttled) and then unconditionally increments the
correction counter and deducts 0.5 score points clamped at 0. -/
def tvApplyFeedback (now : ℤ) (isError : Bool) (localFeedback : String) (s : TvState) : TvState :=
  if isError then
    let s := { s with feedback := localFeedback }
    if s.status = Status.ACTIVE then
      let s := tvSpeak now localFeedback s
      let s := { s with corrections := s.corrections + 1 }
      { s with score := max 0 (s.score - 1/2) }
    else s
  else
    { s with feedback := "姿势标准 ✅" }

/-- One classified frame delivered to the simpler TrainingView's
feedback tail. -/
structure TvEvent where
  status : Status
  now : ℤ
  isError : Bool
  msg : String

/-- Folding classified frames through the simpler TrainingView's
feedback tail. -/
def tvRun (s : TvState) (es : List TvEvent) : TvState :=
  es.foldl (fun s e => tvApplyFeedback e.now e.isError e.msg { s with status := e.status }) s

/-- Initial state of the simpler TrainingView (TrainingView.tsx useState
and useRef initialisers). -/
def tvInitState : TvState :=
  { status := Status.IDLE
    score := 100
    corrections := 0
    feedbackLog := []
    lastSpokenTime := 0
    feedback := "正在启动摄像头..." }

/-- PoseAnalysis, the per-frame analysis record (src/unnamed/part_003,
lines 20-25). -/
structure PoseAnalysis where
  angle : ℚ
  timestamp : ℤ
  isCorrect : Bool
  feedback : String
deriving DecidableEq, Repr

/-- ErrorPatterns, the error-pattern counters (src/unnamed/part_003,
lines 28-33). -/
structure ErrorPatterns where
  torsoErrors : ℕ
  angleErrors : ℕ
  rangeErrors : ℕ
  totalErrors : ℕ
deriving DecidableEq, Repr

/-- PerformanceMetrics (src/unnamed/part_003 lines 36-41, with the
errorRate field the report consumers in src/services/aiService.ts also
read). -/
structure PerformanceMetrics where
  avgAngle : ℚ
  angleVariance : ℚ
  stabilityScore : ℚ
  consistencyScore : ℚ
  errorRate : ℚ
deriving DecidableEq, Repr

/-- Modelled from the spec: the near-zero angle cutoff of the Session
Aggregator's filtering step (spec section 4.5); the spec leaves the
exact constant tunable, any value below the angles of interest works. -/
def nearZeroAngle : ℚ := 5

/-- Modelled from the spec: the Session Aggregator (spec section 4.5).
The component that reduces the recorded PoseAnalysis series into
PerformanceMetrics is not among the source files under src/ (only the
declarations in src/unnamed/part_003 and the report consumers exist), so
it is modelled from the spec's formulas: angles at or below the
near-zero cutoff are filtered out of the angle statistics, avgAngle is
the mean of the filtered angles, angleVariance their population
variance, stabilityScore is max(0, 100 - variance/10), and
consistencyScore and errorRate are the correct / error frame
percentages over all recorded frames. -/
def computeMetrics (analyses : List PoseAnalysis) : PerformanceMetrics :=
  let filtered := analyses.filter (fun a => decide (a.angle > nearZeroAngle))
  let n : ℚ := filtered.length
  let avgAngle := if filtered.length = 0 then 0 else (filtered.map (fun a => a.angle)).sum / n
  let angleVariance :=
    if filtered.length = 0 then 0
    else (filtered.map (fun a => (a.angle - avgAngle) ^ 2)).sum / n
  let total : ℚ := analyses.length
  let correct : ℚ := (analyses.filter (fun a => a.isCorrect)).length
  { avgAngle := avgAngle
    angleVariance := angleVariance
    stabilityScore := max 0 (100 - angleVariance / 10)
    consistencyScore := if analyses.length = 0 then 0 else 100 * correct / total
    errorRate := if analyses.length = 0 then 0 else 100 * (total - correct) / total }

/-- Rounding to two decimal places (the precision at which the spec
states its concrete aggregate values, e.g. 66.67 and 67.33). -/
def roundCent (q : ℚ) : ℚ := ((Int.floor (q * 100 + 1/2) : ℤ) : ℚ) / 100

/-- Modelled from the spec: the recording step of the Session Feedback
Controller (spec section 4.4) — the enhanced TrainingView that appends a
PoseAnalysis entry for every evaluated frame during ACTIVE (and not
during IDLE/COMPLETED) is not among the source files under src/; only
the PoseAnalysis declaration and the report consumers are. -/
def recordFrame (status : Status) (fa : PoseAnalysis) (log : List PoseAnalysis) :
    List PoseAnalysis :=
  if status = Status.ACTIVE then log ++ [fa] else log

/-- Which rule branch attributed an error (spec: torso / angle / range
error patterns). -/
inductive ErrorKind
  | torsoKind
  | angleKind
  | rangeKind
deriving DecidableEq, Repr

/-- Modelled from the spec: incrementing the ErrorPatternCounter that
matches the rule branch which fired, together with the total (spec
sections 3 and 4.4); the counter-updating code is not among the source
files under src/. -/
def bumpPattern (k : ErrorKind) (p : ErrorPatterns) : ErrorPatterns :=
  match k with
  | ErrorKind.torsoKind =>
    { p with torsoErrors := p.torsoErrors + 1, totalErrors := p.totalErrors + 1 }
  | ErrorKind.angleKind =>
    { p with angleErrors := p.angleErrors + 1, totalErrors := p.totalErrors + 1 }
  | ErrorKind.rangeKind =>
    { p with rangeErrors := p.rangeErrors + 1, totalErrors := p.totalErrors + 1 }

/-- Running state of the spec-modelled extended controller: the score
and correction counter as in the source apply-feedback path, plus the
spec-modelled ErrorPatternCounters. -/
structure CtrlState where
  score : ℚ
  corrections : ℕ
  patterns : ErrorPatterns
deriving DecidableEq, Repr

/-- Modelled from the spec: the scoring action on a throttled-through
error (spec section 4.4) — the penalty-clamped score decrement and the
correction increment follow the source apply-feedback path
(ReportView.tsx second module, lines 725-733), and the
ErrorPatternCounter increment for the branch that fired is modelled from
the spec since it is absent from src/. -/
def applyThrottledError (k : ErrorKind) (penalty : ℚ) (s : CtrlState) : CtrlState :=
  { score := max 0 (s.score - penalty)
    corrections := s.corrections + 1
    patterns := bumpPattern k s.patterns }

/-- Folding a sequence of throttled-through errors through the extended
controller. -/
def runThrottledErrors (s : CtrlState) (ks : List (ErrorKind × ℚ)) : CtrlState :=
  ks.foldl (fun s e => applyThrottledError e.1 e.2 s) s

/-- The enhanced session record (src/unnamed/part_003, WorkoutSession
lines 44-56, with the optional statistics fields present). -/
structure EnhancedSession where
  base : WorkoutSession
  poseAnalyses : List PoseAnalysis
  errorPatterns : ErrorPatterns
  performanceMetrics : PerformanceMetrics
deriving Repr

/-- Modelled from the spec: the enhanced session-finish that hands the
recorded PoseAnalysis series, the ErrorPatternCounters and the computed
PerformanceMetrics over inside the completed session record (spec
sections 3 and 4.5); absent from src/. -/
def finishEnhanced (base : WorkoutSession) (log : List PoseAnalysis)
    (pat : ErrorPatterns) : EnhancedSession :=
  { base := base
    poseAnalyses := log
    errorPatterns := pat
    performanceMetrics := computeMetrics log }

/-- The torso-error feedback text of the richer TrainingView. -/
def torsoMsg : String := "身体歪了，保持背部挺直！"

/-- Trivial geometry primitives (all angles evaluate to 0): used to
instantiate theorems at concrete inputs where the torso gate or a
short-circuiting branch decides the outcome. -/
def P0 : GeomPrims := ⟨fun _ _ => 0, 180, fun _ _ => 0⟩

/-- Geometry primitives whose bearing is the x argument: with piVal 180
the three-point angle of a, b, c evaluates to the absolute x difference
of c and a, which lets concrete frames realise any target angle. -/
def xP : GeomPrims := ⟨fun _ x => x, 180, fun _ _ => 0⟩

/-- Geometry primitives whose bearing is the y argument: the three-point
angle of a, b, c evaluates to the absolute y difference of c and a. -/
def yP : GeomPrims := ⟨fun y _ => y, 180, fun _ _ => 0⟩

/-- Landmark at a planar position with full visibility. -/
def mkLm (x y : ℚ) : Landmark := ⟨x, y, 0, 1⟩

/-- The all-zero frame. -/
def zeroFrame : Frame := fun _ => mkLm 0 0

/-- A Bobath-session frame whose shoulder midpoint deviates 0.3 from the
hip midpoint: the torso gate fires. -/
def bFrame : Frame := fun i =>
  if i = 11 ∨ i = 12 then mkLm (4/5) 0
  else if i = 23 ∨ i = 24 then mkLm (1/2) 0
  else mkLm 0 0

/-- A shoulder-abduction frame with torso deviation 0.12 — beyond the
0.10 alignment tolerance but at most 0.15 — whose abduction angle under
the xP primitives is 90 degrees (left elbow x minus left hip x). -/
def aFrame : Frame := fun i =>
  if i = 11 ∨ i = 12 then mkLm (62/100) 0
  else if i = 23 ∨ i = 24 then mkLm (1/2) 0
  else if i = 13 then mkLm (181/2) 0
  else mkLm 0 0

/-- A W-extension frame that satisfies both angle constraints under the
yP primitives: elbow angles 120, arm-torso angles 60. -/
def wFrame : Frame := fun i =>
  if i = 15 ∨ i = 16 then mkLm 0 120
  else if i = 23 ∨ i = 24 then mkLm 0 60
  else mkLm 0 0

/-- An ACTIVE Bobath session with a running 5000 ms hold timer. -/
def bState : TState :=
  { initState with status := Status.ACTIVE, bobathHoldStart := some 5000 }

/-- An IDLE W-extension state whose hold timer has been running since
instant 0. -/
def wIdleState : TState := { initState with wHoldStart := some 0 }

/-- An ACTIVE state mid-session with some score loss, corrections and a
logged correction, about to be finished. -/
def finState : TState :=
  { initState with
    status := Status.ACTIVE
    scoreR := 90
    correctionsR := 3
    feedbackLog := ["手臂抬高一点！"] }

/-- An ACTIVE state with a W-extension hold timer, used to instantiate
the hold-timer reset law at a concrete input. -/
def wWitState : TState :=
  { initState with status := Status.ACTIVE, wHoldStart := some 3 }

/-- The simpler TrainingView's state once the user has pressed start. -/
def tvActive : TvState := { tvInitState with status := Status.ACTIVE }

/-- A sample recorded analysis entry. -/
def fa0 : PoseAnalysis := ⟨80, 0, true, "姿势标准"⟩

/-- The FrameAnalysis series of the spec's concrete aggregation example:
angles 80, 82, 40 with the first two frames correct. -/
def demoSeries : List PoseAnalysis :=
  [⟨80, 0, true, "姿势标准"⟩, ⟨82, 1, true, "姿势标准"⟩, ⟨40, 2, false, "手臂抬高一点！"⟩]

/-! Helper lemmas (shared; none of these is a claim theorem). -/

theorem checkTorso_total (f : Frame) :
    checkTorsoAlignment (fun i => some (f i)) =
      (decide (|((f 11).x + (f 12).x) / 2 - ((f 23).x + (f 24).x) / 2| < (1 : ℚ)/10),
       |((f 11).x + (f 12).x) / 2 - ((f 23).x + (f 24).x) / 2|) := rfl

@[simp] theorem speak_snd_status (now : ℤ) (t : String) (force : Bool) (s : TState) :
    ((speak now t force s).2).status = s.status := by
  unfold speak; dsimp only; split; · rfl
  split <;> rfl

@[simp] theorem speak_snd_scoreR (now : ℤ) (t : String) (force : Bool) (s : TState) :
    ((speak now t force s).2).scoreR = s.scoreR := by
  unfold speak; dsimp only; split; · rfl
  split <;> rfl

@[simp] theorem speak_snd_correctionsR (now : ℤ) (t : String) (force : Bool) (s : TState) :
    ((speak now t force s).2).correctionsR = s.correctionsR := by
  unfold speak; dsimp only; split; · rfl
  split <;> rfl

@[simp] theorem speak_snd_bobath (now : ℤ) (t : String) (force : Bool) (s : TState) :
    ((speak now t force s).2).bobathHoldStart = s.bobathHoldStart := by
  unfold speak; dsimp only; split; · rfl
  split <;> rfl

@[simp] theorem speak_snd_wHold (now : ℤ) (t : String) (force : Bool) (s : TState) :
    ((speak now t force s).2).wHoldStart = s.wHoldStart := by
  unfold speak; dsimp only; split; · rfl
  split <;> rfl

theorem classifyShoulder_pres (P : GeomPrims) (f : Frame) (s : TState) :
    (classifyShoulder P f s).st.scoreR = s.scoreR ∧
    (classifyShoulder P f s).st.correctionsR = s.correctionsR ∧
    (classifyShoulder P f s).st.status = s.status ∧
    (classifyShoulder P f s).st.feedbackLog = s.feedbackLog := by
  unfold classifyShoulder
  dsimp only
  repeat' split
  all_goals simp

theorem classifyW_pres (P : GeomPrims) (now : ℤ) (f : Frame) (s : TState) :
    (classifyW P now f s).st.scoreR = s.scoreR ∧
    (classifyW P now f s).st.correctionsR = s.correctionsR ∧
    (classifyW P now f s).st.status = s.status := by
  unfold classifyW
  dsimp only
  repeat' split
  all_goals simp

theorem classifyTouchEar_pres (P : GeomPrims) (f : Frame) (s : TState) :
    (classifyTouchEar P f s).st.scoreR = s.scoreR ∧
    (classifyTouchEar P f s).st.correctionsR = s.correctionsR ∧
    (classifyTouchEar P f s).st.status = s.status ∧
    (classifyTouchEar P f s).st.feedbackLog = s.feedbackLog := by
  unfold classifyTouchEar
  dsimp only
  repeat' split
  all_goals simp

theorem classifyBobath_pres (P : GeomPrims) (now : ℤ) (f : Frame) (s : TState) :
    (classifyBobath P now f s).st.scoreR = s.scoreR ∧
    (classifyBobath P now f s).st.correctionsR = s.correctionsR ∧
    (classifyBobath P now f s).st.status = s.status := by
  unfold classifyBobath
  dsimp only
  repeat' split
  all_goals simp

theorem classifyWrist_pres (P : GeomPrims) (durationSec timeLeft now : ℤ) (f : Frame) (s : TState) :
    (classifyWrist P durationSec timeLeft now f s).st.scoreR = s.scoreR ∧
    (classifyWrist P durationSec timeLeft now f s).st.correctionsR = s.correctionsR ∧
    (classifyWrist P durationSec timeLeft now f s).st.status = s.status := by
  unfold classifyWrist
  dsimp only
  repeat' split
  all_goals simp

theorem classify_pres (P : GeomPrims) (ex : ExerciseType) (durationSec timeLeft now : ℤ)
    (f : Frame) (s : TState) :
    (classify P ex durationSec timeLeft now f s).st.scoreR = s.scoreR ∧
    (classify P ex durationSec timeLeft now f s).st.correctionsR = s.correctionsR ∧
    (classify P ex durationSec timeLeft now f s).st.status = s.status := by
  unfold classify
  dsimp only
  split
  · exact ⟨rfl, rfl, rfl⟩
  cases ex
  case SHOULDER_ABDUCTION =>
    have h := classifyShoulder_pres P f s
    exact ⟨h.1, h.2.1, h.2.2.1⟩
  case STANDING_W_EXTENSION => exact classifyW_pres P now f s
  case SQUAT => exact ⟨rfl, rfl, rfl⟩
  case TOUCH_EAR =>
    have h := classifyTouchEar_pres P f s
    exact ⟨h.1, h.2.1, h.2.2.1⟩
  case BOBATH_HAND_CLASP => exact classifyBobath_pres P now f s
  case WRIST_ROTATION => exact classifyWrist_pres P durationSec timeLeft now f s

theorem classifyWrist_log (P : GeomPrims) (durationSec timeLeft now : ℤ) (f : Frame) (s : TState)
    (h : s.status ≠ Status.ACTIVE) :
    (classifyWrist P durationSec timeLeft now f s).st.feedbackLog = s.feedbackLog := by
  unfold classifyWrist
  dsimp only
  repeat' split
  all_goals simp_all

theorem applyFeedback_timers (now : ℤ) (e : Bool) (m : String) (s : TState) :
    (applyFeedback now e m s).bobathHoldStart = s.bobathHoldStart ∧
    (applyFeedback now e m s).wHoldStart = s.wHoldStart := by
  unfold applyFeedback
  dsimp only
  repeat' split
  all_goals simp

theorem applyFeedback_score_cases (now : ℤ) (e : Bool) (m : String) (s : TState) :
    (applyFeedback now e m s).scoreR = s.scoreR ∨
    (applyFeedback now e m s).scoreR = max 0 (s.scoreR - 2) := by
  unfold applyFeedback
  dsimp only
  repeat' split
  all_goals simp

theorem applyFeedback_inactive (now : ℤ) (e : Bool) (m : String) (s : TState)
    (h : s.status ≠ Status.ACTIVE) :
    (applyFeedback now e m s).scoreR = s.scoreR ∧
    (applyFeedback now e m s).correctionsR = s.correctionsR ∧
    (applyFeedback now e m s).feedbackLog = s.feedbackLog := by
  unfold applyFeedback
  dsimp only
  repeat' split
  all_goals simp_all

theorem classifyW_reset_cases (P : GeomPrims) (now : ℤ) (f : Frame) (s : TState) :
    (classifyW P now f s).isError = false ∨ (classifyW P now f s).st.wHoldStart = none := by
  unfold classifyW
  dsimp only
  repeat' split
  all_goals simp

theorem classifyBobath_reset_cases (P : GeomPrims) (now : ℤ) (f : Frame) (s : TState) :
    (classifyBobath P now f s).isError = false ∨
    (classifyBobath P now f s).st.bobathHoldStart = none := by
  unfold classifyBobath
  dsimp only
  repeat' split
  all_goals simp

theorem classifyShoulder_cases (P : GeomPrims) (f : Frame) (s : TState) :
    (classifyShoulder P f s).isError = false ∨
    (classifyShoulder P f s).localFeedback = "手臂抬高一点！" ∨
    (classifyShoulder P f s).localFeedback = "太高了，放低一点！" := by
  unfold classifyShoulder
  dsimp only
  repeat' split
  all_goals simp

theorem classifyW_cases (P : GeomPrims) (now : ℤ) (f : Frame) (s : TState) :
    (classifyW P now f s).isError = false ∨
    (classifyW P now f s).localFeedback = "屈肘角度不对，保持约120度" ∨
    (classifyW P now f s).localFeedback = "调整双臂打开幅度 (60度)" := by
  unfold classifyW
  dsimp only
  repeat' split
  all_goals simp

theorem classifyTouchEar_cases (P : GeomPrims) (f : Frame) (s : TState) :
    (classifyTouchEar P f s).isError = false ∨
    (classifyTouchEar P f s).localFeedback = "不要耸肩，沉肩坠肘" := by
  unfold classifyTouchEar
  dsimp only
  repeat' split
  all_goals simp

theorem classifyBobath_cases (P : GeomPrims) (now : ℤ) (f : Frame) (s : TState) :
    (classifyBobath P now f s).isError = false ∨
    (classifyBobath P now f s).localFeedback = "双手十指相扣，握紧！" ∨
    (classifyBobath P now f s).localFeedback = "用力伸直手肘！" ∨
    (classifyBobath P now f s).localFeedback = "举高！把手举过头顶" := by
  unfold classifyBobath
  dsimp only
  repeat' split
  all_goals simp

theorem classifyWrist_cases (P : GeomPrims) (durationSec timeLeft now : ℤ) (f : Frame) (s : TState) :
    (classifyWrist P durationSec timeLeft now f s).isError = false ∨
    (classifyWrist P durationSec timeLeft now f s).localFeedback = "双手合掌，指尖相对！" ∨
    (classifyWrist P durationSec timeLeft now f s).localFeedback = "把手放在胸前位置" := by
  unfold classifyWrist
  dsimp only
  repeat' split
  all_goals simp

theorem processLandmarks_some (P : GeomPrims) (ex : ExerciseType) (d t now : ℤ)
    (f : Frame) (s : TState) :
    processLandmarks P ex d t now (some f) s =
      (⟨(classify P ex d t now f s).isError, (classify P ex d t now f s).localFeedback⟩,
       applyFeedback now (classify P ex d t now f s).isError
         (classify P ex d t now f s).localFeedback (classify P ex d t now f s).st) := rfl

theorem classify_W_eq (P : GeomPrims) (d t now : ℤ) (f : Frame) (s : TState) :
    classify P ExerciseType.STANDING_W_EXTENSION d t now f s = classifyW P now f s := by
  unfold classify
  dsimp only
  split
  · rename_i h; exact absurd rfl h.2.2
  · rfl

theorem classify_bobath_eq (P : GeomPrims) (d t now : ℤ) (f : Frame) (s : TState)
    (h : ¬ ((checkTorsoAlignment (fun i => some (f i))).1 = false ∧
            (checkTorsoAlignment (fun i => some (f i))).2 > (15 : ℚ)/100)) :
    classify P ExerciseType.BOBATH_HAND_CLASP d t now f s = classifyBobath P now f s := by
  unfold classify
  dsimp only
  split
  · rename_i hc; exact absurd ⟨hc.1, hc.2.1⟩ h
  · rfl

theorem classify_torso_fires (P : GeomPrims) (ex : ExerciseType) (d t now : ℤ)
    (f : Frame) (s : TState)
    (hdev : (checkTorsoAlignment (fun i => some (f i))).2 > (15 : ℚ)/100)
    (hex : ex ≠ ExerciseType.STANDING_W_EXTENSION) :
    classify P ex d t now f s = ⟨true, "身体歪了，保持背部挺直！", s⟩ := by
  have h1 : (checkTorsoAlignment (fun i => some (f i))).1 = false := by
    rw [checkTorso_total] at hdev ⊢
    dsimp only at hdev ⊢
    exact decide_eq_false (not_lt.2 (le_trans (by norm_num) (le_of_lt hdev)))
  unfold classify
  dsimp only
  rw [if_pos ⟨h1, hdev, hex⟩]

theorem torso_bFrame : checkTorsoAlignment (fun i => some (bFrame i)) = (false, 3/10) := by
  rw [checkTorso_total]
  have hx : |((bFrame 11).x + (bFrame 12).x) / 2 - ((bFrame 23).x + (bFrame 24).x) / 2| =
      (3 : ℚ)/10 := by
    simp only [bFrame, mkLm]
    norm_num
  rw [hx]
  norm_num

/-- Claim C3, counterexample: in a Bobath session with a running hold
timer (started at 5000 ms), a frame whose torso deviation is 0.3 is
classified as an error, yet the hold timer is left running — the
torso-error branch of processLandmarks does not null bobathHoldStart. -/
theorem holdTimer_error_cex :
    (processLandmarks P0 ExerciseType.BOBATH_HAND_CLASP 60 0 6000 (some bFrame) bState).1.isError
        = true ∧
    bState.bobathHoldStart = some 5000 ∧
    (processLandmarks P0 ExerciseType.BOBATH_HAND_CLASP 60 0 6000 (some bFrame) bState).2.bobathHoldStart
        = some 5000 := by
  have hcl := classify_torso_fires P0 ExerciseType.BOBATH_HAND_CLASP 60 0 6000 bFrame bState
    (by rw [torso_bFrame]; norm_num) (by decide)
  rw [processLandmarks_some, hcl]
  refine ⟨rfl, by simp [bState, initState], ?_⟩
  rw [(applyFeedback_timers 6000 true ("身体歪了，保持背部挺直！") bState).1]
  simp [bState, initState]

/-- Claim C3, amended: an error frame produced by the exercise rule
branches clears the hold timer — in STANDING_W_EXTENSION every
error-classified frame nulls wHoldStart, and in BOBATH_HAND_CLASP every
error frame on which the torso gate did not fire nulls bobathHoldStart;
a torso-alignment error in BOBATH_HAND_CLASP (the counterexample) leaves
the running hold timer intact. -/
theorem holdTimer_reset_amended (P : GeomPrims) (durationSec timeLeft now : ℤ)
    (f : Frame) (s : TState) :
    ((processLandmarks P ExerciseType.STANDING_W_EXTENSION durationSec timeLeft now
        (some f) s).1.isError = true →
      (processLandmarks P ExerciseType.STANDING_W_EXTENSION durationSec timeLeft now
        (some f) s).2.wHoldStart = none) ∧
    (¬ ((checkTorsoAlignment (fun i => some (f i))).1 = false ∧
          (checkTorsoAlignment (fun i => some (f i))).2 > (15 : ℚ)/100) →
      (processLandmarks P ExerciseType.BOBATH_HAND_CLASP durationSec timeLeft now
        (some f) s).1.isError = true →
      (processLandmarks P ExerciseType.BOBATH_HAND_CLASP durationSec timeLeft now
        (some f) s).2.bobathHoldStart = none) := by
  constructor
  · intro h
    rw [processLandmarks_some, classify_W_eq] at h ⊢
    rcases classifyW_reset_cases P now f s with hc | hc
    · rw [hc] at h; exact absurd h (by simp)
    · dsimp only at h ⊢
      rw [(applyFeedback_timers now _ _ _).2, hc]
  · intro hg h
    rw [processLandmarks_some, classify_bobath_eq P durationSec timeLeft now f s hg] at h ⊢
    rcases classifyBobath_reset_cases P now f s with hc | hc
    · rw [hc] at h; exact absurd h (by simp)
    · dsimp only at h ⊢
      rw [(applyFeedback_timers now _ _ _).1, hc]

/-- Claim C3, witness: the amended hold-timer law applied at a concrete
erroneous W-extension frame with a running timer. -/
theorem holdTimer_reset_amended_witness :
    (processLandmarks P0 ExerciseType.STANDING_W_EXTENSION 60 0 0
      (some zeroFrame) wWitState).2.wHoldStart = none := by
  refine (holdTimer_reset_amended P0 60 0 0 zeroFrame wWitState).1 ?_
  rw [processLandmarks_some, classify_W_eq]
  norm_num [classifyW, calculateAngle, P0, zeroFrame, mkLm]

theorem torso_aFrame : checkTorsoAlignment (fun i => some (aFrame i)) = (false, 12/100) := by
  rw [checkTorso_total]
  have hx : |((aFrame 11).x + (aFrame 12).x) / 2 - ((aFrame 23).x + (aFrame 24).x) / 2| =
      (12 : ℚ)/100 := by
    simp only [aFrame, mkLm]
    norm_num
  rw [hx]
  norm_num

theorem angle_aFrame :
    calculateAngle xP (some (aFrame LEFT_HIP)) (some (aFrame LEFT_SHOULDER))
      (some (aFrame LEFT_ELBOW)) = 90 := by
  simp only [calculateAngle, xP, aFrame, mkLm, LEFT_HIP, LEFT_SHOULDER, LEFT_ELBOW]
  norm_num

/-- Claim C7, counterexample: a frame of a non-exempt exercise
(SHOULDER_ABDUCTION) whose torso deviation 0.12 is beyond the 0.10
alignment tolerance (checkTorsoAlignment reports mis-aligned) is NOT
classified as an error: processLandmarks additionally requires the
deviation to exceed 0.15 before the torso-error branch fires. -/
theorem torsoError_claim_cex :
    (checkTorsoAlignment (fun i => some (aFrame i))).1 = false ∧
    (checkTorsoAlignment (fun i => some (aFrame i))).2 > (1 : ℚ)/10 ∧
    (processLandmarks xP ExerciseType.SHOULDER_ABDUCTION 60 0 0 (some aFrame)
      { initState with status := Status.ACTIVE }).1.isError = false := by
  have hguard : ¬ ((checkTorsoAlignment (fun i => some (aFrame i))).1 = false ∧
      (checkTorsoAlignment (fun i => some (aFrame i))).2 > (15 : ℚ)/100 ∧
      ExerciseType.SHOULDER_ABDUCTION ≠ ExerciseType.STANDING_W_EXTENSION) := by
    rw [torso_aFrame]
    intro h
    have := h.2.1
    norm_num at this
  refine ⟨by rw [torso_aFrame], by rw [torso_aFrame]; norm_num, ?_⟩
  rw [processLandmarks_some]
  have hcl : classify xP ExerciseType.SHOULDER_ABDUCTION 60 0 0 aFrame
      { initState with status := Status.ACTIVE } =
      classifyShoulder xP aFrame { initState with status := Status.ACTIVE } := by
    unfold classify
    dsimp only
    rw [if_neg hguard]
  rw [hcl]
  dsimp only
  unfold classifyShoulder
  dsimp only
  rw [angle_aFrame]
  norm_num

/-- Claim C7, amended: on a frame with a detected person, the torso-error
classification fires exactly when the torso deviation exceeds 0.15 (not
the 0.10 alignment tolerance) and the exercise is not the exempt
STANDING_W_EXTENSION; then the frame yields isError = true with the
torso feedback text. -/
theorem torsoError_threshold_amended (P : GeomPrims) (ex : ExerciseType)
    (durationSec timeLeft now : ℤ) (f : Frame) (s : TState)
    (hdev : (checkTorsoAlignment (fun i => some (f i))).2 > (15 : ℚ)/100)
    (hex : ex ≠ ExerciseType.STANDING_W_EXTENSION) :
    (processLandmarks P ex durationSec timeLeft now (some f) s).1 =
      ⟨true, "身体歪了，保持背部挺直！"⟩ := by
  rw [processLandmarks_some, classify_torso_fires P ex durationSec timeLeft now f s hdev hex]

/-- Claim C7, witness: the amended torso-error law applied at a concrete
frame with deviation 0.3 in a Bobath session. -/
theorem torsoError_threshold_amended_witness :
    (processLandmarks P0 ExerciseType.BOBATH_HAND_CLASP 60 0 6000 (some bFrame)
      { initState with status := Status.ACTIVE }).1 = ⟨true, "身体歪了，保持背部挺直！"⟩ :=
  torsoError_threshold_amended P0 ExerciseType.BOBATH_HAND_CLASP 60 0 6000 bFrame
    { initState with status := Status.ACTIVE }
    (by rw [torso_bFrame]; norm_num) (by decide)

/-- Claim C8: the guarded three-point angle returns the sentinel 0 (and
in particular is total, never throwing) whenever any of the three
landmarks a, b, c is missing. -/
theorem calculateAngle_missing_sentinel (P : GeomPrims) (a b c : Option Landmark)
    (h : a = none ∨ b = none ∨ c = none) : calculateAngle P a b c = 0 := by
  rcases h with h | h | h
  · subst h; cases b <;> cases c <;> rfl
  · subst h; cases a <;> cases c <;> rfl
  · subst h; cases a <;> cases b <;> rfl

/-- Claim C8, witness: the sentinel law applied with the middle landmark
missing. -/
theorem calculateAngle_missing_sentinel_witness :
    calculateAngle P0 (some (mkLm 1 2)) none (some (mkLm 3 4)) = 0 :=
  calculateAngle_missing_sentinel P0 (some (mkLm 1 2)) none (some (mkLm 3 4))
    (Or.inr (Or.inl rfl))

/-- Claim C1: on the spec's concrete FrameAnalysis series (angles 80, 82,
40; first two frames correct) the aggregator yields consistencyScore
100 × 2⁄3 and avgAngle (80 + 82 + 40)⁄3, whose two-decimal renderings
are 66.67 and 67.33 (none of the entries is filtered by the near-zero
rule). -/
theorem aggregation_concrete :
    (computeMetrics demoSeries).consistencyScore = 100 * 2 / 3 ∧
    (computeMetrics demoSeries).avgAngle = (80 + 82 + 40) / 3 ∧
    roundCent (computeMetrics demoSeries).consistencyScore = 6667/100 ∧
    roundCent (computeMetrics demoSeries).avgAngle = 6733/100 ∧
    (demoSeries.filter (fun a => decide (a.angle > nearZeroAngle))).length
      = demoSeries.length := by
  have hc : (computeMetrics demoSeries).consistencyScore = 200/3 := by
    simp [computeMetrics, demoSeries, nearZeroAngle, List.filter]
    norm_num
  have ha : (computeMetrics demoSeries).avgAngle = 202/3 := by
    simp only [computeMetrics, demoSeries, nearZeroAngle]
    norm_num [List.filter, List.map, List.sum]
  refine ⟨by rw [hc]; norm_num, by rw [ha]; norm_num, ?_, ?_, ?_⟩
  · rw [hc]; unfold roundCent; norm_num [Int.floor_eq_iff]
  · rw [ha]; unfold roundCent; norm_num [Int.floor_eq_iff]
  · norm_num [demoSeries, nearZeroAngle, List.filter]

/-- Claim C2: the controller's recording step appends a FrameAnalysis
entry for every frame evaluated while ACTIVE — independent of the error
verdict carried in the entry — and appends nothing while IDLE or
COMPLETED; the recorded series is handed over unchanged inside the
completed session record. -/
theorem recording_law (st : Status) (fa : PoseAnalysis) (log : List PoseAnalysis)
    (b : WorkoutSession) (pat : ErrorPatterns) :
    (st = Status.ACTIVE → recordFrame st fa log = log ++ [fa]) ∧
    (st ≠ Status.ACTIVE → recordFrame st fa log = log) ∧
    (finishEnhanced b (recordFrame st fa log) pat).poseAnalyses = recordFrame st fa log := by
  refine ⟨fun h => ?_, fun h => ?_, rfl⟩
  · rw [recordFrame, if_pos h]
  · rw [recordFrame, if_neg h]

/-- Claim C2, witness: the recording law applied concretely — an ACTIVE
frame is appended, an IDLE and a COMPLETED frame are not. -/
theorem recording_law_witness :
    recordFrame Status.ACTIVE fa0 [] = [fa0] ∧
    recordFrame Status.IDLE fa0 [] = [] ∧
    recordFrame Status.COMPLETED fa0 [] = [] := by
  refine ⟨?_, ?_, ?_⟩
  · exact (recording_law Status.ACTIVE fa0 []
      ⟨"0", ExerciseType.SHOULDER_ABDUCTION, 0, 0, 100, 0, []⟩ ⟨0, 0, 0, 0⟩).1 rfl
  · exact (recording_law Status.IDLE fa0 []
      ⟨"0", ExerciseType.SHOULDER_ABDUCTION, 0, 0, 100, 0, []⟩ ⟨0, 0, 0, 0⟩).2.1 (by decide)
  · exact (recording_law Status.COMPLETED fa0 []
      ⟨"0", ExerciseType.SHOULDER_ABDUCTION, 0, 0, 100, 0, []⟩ ⟨0, 0, 0, 0⟩).2.1 (by decide)

theorem runThrottledErrors_mono (ks : List (ErrorKind × ℚ)) (s : CtrlState) :
    s.patterns.torsoErrors ≤ (runThrottledErrors s ks).patterns.torsoErrors ∧
    s.patterns.angleErrors ≤ (runThrottledErrors s ks).patterns.angleErrors ∧
    s.patterns.rangeErrors ≤ (runThrottledErrors s ks).patterns.rangeErrors ∧
    s.patterns.totalErrors ≤ (runThrottledErrors s ks).patterns.totalErrors ∧
    s.corrections ≤ (runThrottledErrors s ks).corrections := by
  induction ks generalizing s with
  | nil => exact ⟨le_refl _, le_refl _, le_refl _, le_refl _, le_refl _⟩
  | cons e ks ih =>
    have hstep : s.patterns.torsoErrors ≤ (applyThrottledError e.1 e.2 s).patterns.torsoErrors ∧
        s.patterns.angleErrors ≤ (applyThrottledError e.1 e.2 s).patterns.angleErrors ∧
        s.patterns.rangeErrors ≤ (applyThrottledError e.1 e.2 s).patterns.rangeErrors ∧
        s.patterns.totalErrors ≤ (applyThrottledError e.1 e.2 s).patterns.totalErrors ∧
        s.corrections ≤ (applyThrottledError e.1 e.2 s).corrections := by
      cases e.1 <;> simp [applyThrottledError, bumpPattern]
    have ih2 := ih (applyThrottledError e.1 e.2 s)
    have hrun : runThrottledErrors s (e :: ks) =
        runThrottledErrors (applyThrottledError e.1 e.2 s) ks := rfl
    rw [hrun]
    exact ⟨le_trans hstep.1 ih2.1, le_trans hstep.2.1 ih2.2.1,
      le_trans hstep.2.2.1 ih2.2.2.1, le_trans hstep.2.2.2.1 ih2.2.2.2.1,
      le_trans hstep.2.2.2.2 ih2.2.2.2.2⟩

/-- Claim C6: a throttled-through error decrements the score by the
penalty clamped at 0 and increments the correction counter, and the
ErrorPatternCounter matching the rule branch that fired (torso, angle or
range) is incremented along with the total; over any error sequence the
four counters and the correction counter are monotonically
non-decreasing, and the counters are present unchanged in the completed
session's statistics. -/
theorem errorPattern_counters (q : ℚ) (s : CtrlState) (ks : List (ErrorKind × ℚ))
    (b : WorkoutSession) (log : List PoseAnalysis) :
    ((applyThrottledError ErrorKind.torsoKind q s).patterns.torsoErrors
        = s.patterns.torsoErrors + 1) ∧
    ((applyThrottledError ErrorKind.angleKind q s).patterns.angleErrors
        = s.patterns.angleErrors + 1) ∧
    ((applyThrottledError ErrorKind.rangeKind q s).patterns.rangeErrors
        = s.patterns.rangeErrors + 1) ∧
    (∀ k : ErrorKind, (applyThrottledError k q s).patterns.totalErrors
        = s.patterns.totalErrors + 1 ∧
      (applyThrottledError k q s).corrections = s.corrections + 1 ∧
      (applyThrottledError k q s).score = max 0 (s.score - q)) ∧
    (s.patterns.torsoErrors ≤ (runThrottledErrors s ks).patterns.torsoErrors ∧
      s.patterns.angleErrors ≤ (runThrottledErrors s ks).patterns.angleErrors ∧
      s.patterns.rangeErrors ≤ (runThrottledErrors s ks).patterns.rangeErrors ∧
      s.patterns.totalErrors ≤ (runThrottledErrors s ks).patterns.totalErrors ∧
      s.corrections ≤ (runThrottledErrors s ks).corrections) ∧
    (finishEnhanced b log (runThrottledErrors s ks).patterns).errorPatterns
        = (runThrottledErrors s ks).patterns := by
  refine ⟨rfl, rfl, rfl, fun k => ?_, runThrottledErrors_mono ks s, rfl⟩
  cases k <;> exact ⟨rfl, rfl, rfl⟩

/-- Claim C4, counterexample: in the simpler TrainingView variant
(TrainingView.tsx), two non-forced ACTIVE error events at t = 0 and
t = 1000 under the 3000 ms cooldown: the second event emits no feedback
(the log stays empty) yet it DOES apply the score penalty and the
correction increment — penalty and counter are not gated by the
cooldown there. -/
theorem throttle_claim_cex :
    (tvApplyFeedback 1000 true ("手臂抬高一点！")
        (tvApplyFeedback 0 true ("手臂抬高一点！") tvActive)).feedbackLog = [] ∧
    (tvApplyFeedback 1000 true ("手臂抬高一点！")
        (tvApplyFeedback 0 true ("手臂抬高一点！") tvActive)).corrections =
      (tvApplyFeedback 0 true ("手臂抬高一点！") tvActive).corrections + 1 ∧
    (tvApplyFeedback 1000 true ("手臂抬高一点！")
        (tvApplyFeedback 0 true ("手臂抬高一点！") tvActive)).score =
      (tvApplyFeedback 0 true ("手臂抬高一点！") tvActive).score - 1/2 := by
  have h1 : tvApplyFeedback 0 true ("手臂抬高一点！") tvActive =
      { tvActive with feedback := "手臂抬高一点！", corrections := 1, score := 199/2 } := by
    simp [tvApplyFeedback, tvSpeak, tvActive, tvInitState]
    norm_num
  rw [h1]
  simp [tvApplyFeedback, tvSpeak, tvActive, tvInitState]
  norm_num

/-- Claim C4, amended: the stated throttle law holds for the controller
of the richer TrainingView (ReportView.tsx second module), whose speak
reports success and gates the penalty: with a fresh 3000 ms cooldown and
non-forced non-countdown error events at t = 0, 1000 and 3100 ms, the
event at t = 1000 triggers neither a feedback emission nor a score
penalty nor a correction increment, while the event at t = 3100 triggers
the emission, the 2-point clamped penalty and the correction increment.
In the simpler TrainingView variant (the counterexample) only the
emission obeys the cooldown: score penalty and correction increment are
applied on every ACTIVE error frame. -/
theorem throttle_law_amended (s : TState) (msg : String)
    (hA : s.status = Status.ACTIVE) (hL : s.lastSpokenTime = 0)
    (hC : containsSec msg = false) :
    ((applyFeedback 1000 true msg (applyFeedback 0 true msg s)).feedbackLog =
        (applyFeedback 0 true msg s).feedbackLog ∧
      (applyFeedback 1000 true msg (applyFeedback 0 true msg s)).scoreR =
        (applyFeedback 0 true msg s).scoreR ∧
      (applyFeedback 1000 true msg (applyFeedback 0 true msg s)).correctionsR =
        (applyFeedback 0 true msg s).correctionsR) ∧
    ((applyFeedback 3100 true msg
        (applyFeedback 1000 true msg (applyFeedback 0 true msg s))).feedbackLog =
        (applyFeedback 1000 true msg (applyFeedback 0 true msg s)).feedbackLog ++ [msg] ∧
      (applyFeedback 3100 true msg
        (applyFeedback 1000 true msg (applyFeedback 0 true msg s))).correctionsR =
        (applyFeedback 1000 true msg (applyFeedback 0 true msg s)).correctionsR + 1 ∧
      (applyFeedback 3100 true msg
        (applyFeedback 1000 true msg (applyFeedback 0 true msg s))).scoreR =
        max 0 ((applyFeedback 1000 true msg (applyFeedback 0 true msg s)).scoreR - 2)) := by
  have h1 : applyFeedback 0 true msg s = { s with feedback := msg } := by
    simp [applyFeedback, speak, hA, hL, hC]
  have h2 : applyFeedback 1000 true msg { s with feedback := msg } =
      { s with feedback := msg } := by
    simp [applyFeedback, speak, hA, hL, hC]
  have h3 : applyFeedback 3100 true msg { s with feedback := msg } =
      { s with
        feedback := msg
        lastSpokenTime := 3100
        feedbackLog := s.feedbackLog ++ [msg]
        correctionsR := s.correctionsR + 1
        scoreR := max 0 (s.scoreR - 2) } := by
    simp [applyFeedback, speak, hA, hL, hC]
  rw [h1, h2, h3]
  exact ⟨⟨rfl, rfl, rfl⟩, rfl, rfl, rfl⟩

/-- Claim C4, witness: the amended throttle law applied at the initial
ACTIVE state with a concrete error message. -/
theorem throttle_law_amended_witness :
    (applyFeedback 3100 true ("手臂抬高一点！")
        (applyFeedback 1000 true ("手臂抬高一点！")
          (applyFeedback 0 true ("手臂抬高一点！")
            { initState with status := Status.ACTIVE }))).scoreR =
      max 0 ((applyFeedback 1000 true ("手臂抬高一点！")
        (applyFeedback 0 true ("手臂抬高一点！")
          { initState with status := Status.ACTIVE })).scoreR - 2) :=
  (throttle_law_amended { initState with status := Status.ACTIVE } ("手臂抬高一点！")
    rfl rfl (by decide)).2.2.2

theorem stepEvent_score_cases (P : GeomPrims) (ex : ExerciseType) (d : ℤ)
    (s : TState) (e : FrameEvent) :
    (stepEvent P ex d s e).scoreR = s.scoreR ∨
    (stepEvent P ex d s e).scoreR = max 0 (s.scoreR - 2) := by
  unfold stepEvent
  cases hr : e.res with
  | none => left; rfl
  | some f =>
    rw [processLandmarks_some]
    dsimp only
    have hc := (classify_pres P ex d e.timeLeft e.now f { s with status := e.status }).1
    rcases applyFeedback_score_cases e.now
        (classify P ex d e.timeLeft e.now f { s with status := e.status }).isError
        (classify P ex d e.timeLeft e.now f { s with status := e.status }).localFeedback
        (classify P ex d e.timeLeft e.now f { s with status := e.status }).st with h | h
    · left; rw [h, hc]
    · right; rw [h, hc]

theorem runEvents_score_bounds (P : GeomPrims) (ex : ExerciseType) (d : ℤ)
    (es : List FrameEvent) (s : TState) (h0 : 0 ≤ s.scoreR) (h100 : s.scoreR ≤ 100) :
    0 ≤ (runEvents P ex d s es).scoreR ∧ (runEvents P ex d s es).scoreR ≤ 100 := by
  induction es generalizing s with
  | nil => exact ⟨h0, h100⟩
  | cons e es ih =>
    have hrun : runEvents P ex d s (e :: es) =
        runEvents P ex d (stepEvent P ex d s e) es := rfl
    rw [hrun]
    rcases stepEvent_score_cases P ex d s e with h | h
    · exact ih _ (h ▸ h0) (h ▸ h100)
    · refine ih _ ?_ ?_
      · rw [h]; exact le_max_left 0 _
      · rw [h]
        refine max_le (by norm_num) ?_
        calc s.scoreR - 2 ≤ s.scoreR := by linarith
          _ ≤ 100 := h100

theorem tvStep_score_cases (now : ℤ) (e : Bool) (m : String) (s : TvState) :
    (tvApplyFeedback now e m s).score = s.score ∨
    (tvApplyFeedback now e m s).score = max 0 (s.score - 1/2) := by
  unfold tvApplyFeedback
  dsimp only
  repeat' split
  all_goals simp [tvSpeak]
  all_goals split <;> simp

theorem tvRun_score_bounds (es : List TvEvent) (s : TvState)
    (h0 : 0 ≤ s.score) (h100 : s.score ≤ 100) :
    0 ≤ (tvRun s es).score ∧ (tvRun s es).score ≤ 100 := by
  induction es generalizing s with
  | nil => exact ⟨h0, h100⟩
  | cons e es ih =>
    have hrun : tvRun s (e :: es) =
        tvRun (tvApplyFeedback e.now e.isError e.msg { s with status := e.status }) es := rfl
    rw [hrun]
    rcases tvStep_score_cases e.now e.isError e.msg { s with status := e.status } with h | h
    · exact ih _ (by rw [h]; exact h0) (by rw [h]; exact h100)
    · refine ih _ ?_ ?_
      · rw [h]; exact le_max_left 0 _
      · rw [h]
        refine max_le (by norm_num) ?_
        have : s.score - 1/2 ≤ s.score := by linarith
        calc ({ s with status := e.status } : TvState).score - 1/2 ≤ s.score := by
              dsimp only; linarith
          _ ≤ 100 := h100

/-- Claim C5: starting from the initial score of 100, any sequence of
classified frames — through either variant's feedback controller —
leaves the session score inside the interval 0 to 100: the 2-point
(respectively half-point) penalty is clamped at 0 from below and no
operation ever raises the score. -/
theorem score_stays_in_bounds (P : GeomPrims) (ex : ExerciseType) (d : ℤ)
    (es : List FrameEvent) (es2 : List TvEvent) :
    (0 ≤ (runEvents P ex d initState es).scoreR ∧
      (runEvents P ex d initState es).scoreR ≤ 100) ∧
    (0 ≤ (tvRun tvInitState es2).score ∧ (tvRun tvInitState es2).score ≤ 100) :=
  ⟨runEvents_score_bounds P ex d es initState (by norm_num [initState]) (by norm_num [initState]),
   tvRun_score_bounds es2 tvInitState (by norm_num [tvInitState]) (by norm_num [tvInitState])⟩

/-- Claim C9 (code bug): session finish is NOT idempotent in the code —
finishing at t = 10000 and again at t = 11000 flips the status to
COMPLETED but the second call still emits a session record, the forced
completion announcement is pushed onto the shared feedback log again (so
the second record's log is one entry longer), and the two emitted
records differ (timestamp, id and log), even though score and correction
counters are indeed not mutated between the calls. -/
theorem finish_not_idempotent :
    (handleFinish ExerciseType.SHOULDER_ABDUCTION 60 10000 0 finState).2.status
        = Status.COMPLETED ∧
    (handleFinish ExerciseType.SHOULDER_ABDUCTION 60 11000 0
        (handleFinish ExerciseType.SHOULDER_ABDUCTION 60 10000 0 finState).2).1 ≠
      (handleFinish ExerciseType.SHOULDER_ABDUCTION 60 10000 0 finState).1 ∧
    (handleFinish ExerciseType.SHOULDER_ABDUCTION 60 11000 0
        (handleFinish ExerciseType.SHOULDER_ABDUCTION 60 10000 0 finState).2).1.feedbackLog.length =
      (handleFinish ExerciseType.SHOULDER_ABDUCTION 60 10000 0 finState).1.feedbackLog.length + 1 ∧
    (handleFinish ExerciseType.SHOULDER_ABDUCTION 60 11000 0
        (handleFinish ExerciseType.SHOULDER_ABDUCTION 60 10000 0 finState).2).2.scoreR =
      (handleFinish ExerciseType.SHOULDER_ABDUCTION 60 10000 0 finState).2.scoreR ∧
    (handleFinish ExerciseType.SHOULDER_ABDUCTION 60 11000 0
        (handleFinish ExerciseType.SHOULDER_ABDUCTION 60 10000 0 finState).2).2.correctionsR =
      (handleFinish ExerciseType.SHOULDER_ABDUCTION 60 10000 0 finState).2.correctionsR := by
  have hsec : containsSec ("训练完成。非常棒！") = false := by decide
  have h1 : handleFinish ExerciseType.SHOULDER_ABDUCTION 60 10000 0 finState =
      ({ id := toString (10000 : ℤ)
         exerciseId := ExerciseType.SHOULDER_ABDUCTION
         timestamp := 10000
         duration := 60
         accuracyScore := 90
         correctionCount := 3
         feedbackLog := ["手臂抬高一点！", "训练完成。非常棒！"] },
       { finState with
         status := Status.COMPLETED
         lastSpokenTime := 10000
         feedbackLog := ["手臂抬高一点！", "训练完成。非常棒！"] }) := by
    simp [handleFinish, speak, hsec, finState, initState]
  rw [h1]
  have h2 : handleFinish ExerciseType.SHOULDER_ABDUCTION 60 11000 0
      ({ finState with
         status := Status.COMPLETED
         lastSpokenTime := 10000
         feedbackLog := ["手臂抬高一点！", "训练完成。非常棒！"] } : TState) =
      ({ id := toString (11000 : ℤ)
         exerciseId := ExerciseType.SHOULDER_ABDUCTION
         timestamp := 11000
         duration := 60
         accuracyScore := 90
         correctionCount := 3
         feedbackLog := ["手臂抬高一点！", "训练完成。非常棒！", "训练完成。非常棒！"] },
       { finState with
         status := Status.COMPLETED
         lastSpokenTime := 11000
         feedbackLog := ["手臂抬高一点！", "训练完成。非常棒！", "训练完成。非常棒！"] }) := by
    simp [handleFinish, speak, hsec, finState, initState]
  rw [h2]
  refine ⟨rfl, ?_, rfl, rfl, rfl⟩
  intro h
  have := congrArg WorkoutSession.timestamp h
  simp at this

theorem wAngle_elbow_left :
    calculateAngle yP (some (wFrame LEFT_SHOULDER)) (some (wFrame LEFT_ELBOW))
      (some (wFrame LEFT_WRIST)) = 120 := by
  simp only [calculateAngle, yP, wFrame, mkLm, LEFT_SHOULDER, LEFT_ELBOW, LEFT_WRIST]
  norm_num

theorem wAngle_elbow_right :
    calculateAngle yP (some (wFrame RIGHT_SHOULDER)) (some (wFrame RIGHT_ELBOW))
      (some (wFrame RIGHT_WRIST)) = 120 := by
  simp only [calculateAngle, yP, wFrame, mkLm, RIGHT_SHOULDER, RIGHT_ELBOW, RIGHT_WRIST]
  norm_num

theorem wAngle_arm_left :
    calculateAngle yP (some (wFrame LEFT_HIP)) (some (wFrame LEFT_SHOULDER))
      (some (wFrame LEFT_ELBOW)) = 60 := by
  simp only [calculateAngle, yP, wFrame, mkLm, LEFT_HIP, LEFT_SHOULDER, LEFT_ELBOW]
  norm_num

theorem wAngle_arm_right :
    calculateAngle yP (some (wFrame RIGHT_HIP)) (some (wFrame RIGHT_SHOULDER))
      (some (wFrame RIGHT_ELBOW)) = 60 := by
  simp only [calculateAngle, yP, wFrame, mkLm, RIGHT_HIP, RIGHT_SHOULDER, RIGHT_ELBOW]
  norm_num

theorem classifyW_wIdle :
    classifyW yP 10000 wFrame wIdleState =
      ⟨false, "非常棒！放松一下",
        { wIdleState with
          debugAngle := 120
          lastWSuccess := 10000
          lastSpokenTime := 10000
          feedbackLog := ["完成一组，放松"]
          wHoldStart := none }⟩ := by
  have hsec : containsSec ("完成一组，放松") = false := by decide
  have hjr : jsRound (((120 : ℚ) + 120) / 2) = 120 := by
    unfold jsRound
    rw [Int.floor_eq_iff]; norm_num
  unfold classifyW
  rw [wAngle_elbow_left, wAngle_elbow_right, wAngle_arm_left, wAngle_arm_right]
  simp [speak, hsec, wIdleState, initState, jsRound]
  norm_num [Int.floor_eq_iff]

/-- Claim C10, counterexample: a frame processed while the session is
IDLE can alter the feedback log — in a W-extension hold whose timer
completed (10 seconds) the forced success announcement is spoken and
pushed onto the feedback log even though the status is IDLE, and that
log is part of the record handleFinish later hands over. -/
theorem idle_frame_log_cex :
    wIdleState.status = Status.IDLE ∧
    (processLandmarks yP ExerciseType.STANDING_W_EXTENSION 60 0 10000
        (some wFrame) wIdleState).2.feedbackLog =
      wIdleState.feedbackLog ++ ["完成一组，放松"] := by
  refine ⟨rfl, ?_⟩
  rw [processLandmarks_some, classify_W_eq, classifyW_wIdle]
  dsimp only
  have hIn : ¬ (({ wIdleState with
      debugAngle := 120
      lastWSuccess := 10000
      lastSpokenTime := 10000
      feedbackLog := ["完成一组，放松"]
      wHoldStart := none } : TState).status = Status.ACTIVE ∧
      containsHold ("非常棒！放松一下") = true) := by
    intro h
    exact absurd h.1 (by simp [wIdleState, initState])
  unfold applyFeedback
  dsimp only
  rw [if_neg (by simp)]
  rw [if_neg hIn]
  simp [wIdleState, initState]

theorem classify_log_inactive (P : GeomPrims) (ex : ExerciseType) (d t now : ℤ)
    (f : Frame) (s : TState) (hst : s.status ≠ Status.ACTIVE)
    (hW : ex ≠ ExerciseType.STANDING_W_EXTENSION)
    (hB : ex ≠ ExerciseType.BOBATH_HAND_CLASP) :
    (classify P ex d t now f s).st.feedbackLog = s.feedbackLog := by
  unfold classify
  dsimp only
  split
  · rfl
  cases ex
  case SHOULDER_ABDUCTION => exact (classifyShoulder_pres P f s).2.2.2
  case STANDING_W_EXTENSION => exact absurd rfl hW
  case SQUAT => rfl
  case TOUCH_EAR => exact (classifyTouchEar_pres P f s).2.2.2
  case BOBATH_HAND_CLASP => exact absurd rfl hB
  case WRIST_ROTATION => exact classifyWrist_log P d t now f s hst

/-- Claim C10, amended: a frame processed while the session is IDLE or
COMPLETED never changes the score or the correction count, and — except
for the forced hold-success announcements of the W-extension and Bobath
branches, which append to the feedback log regardless of status (the
counterexample) — it leaves the feedback log unchanged as well; only the
transient on-screen feedback may change. -/
theorem inactive_frame_effect (P : GeomPrims) (ex : ExerciseType) (d t now : ℤ)
    (res : Option Frame) (s : TState) (h : s.status ≠ Status.ACTIVE) :
    (processLandmarks P ex d t now res s).2.scoreR = s.scoreR ∧
    (processLandmarks P ex d t now res s).2.correctionsR = s.correctionsR ∧
    (ex ≠ ExerciseType.STANDING_W_EXTENSION → ex ≠ ExerciseType.BOBATH_HAND_CLASP →
      (processLandmarks P ex d t now res s).2.feedbackLog = s.feedbackLog) := by
  cases res with
  | none => exact ⟨rfl, rfl, fun _ _ => rfl⟩
  | some f =>
    rw [processLandmarks_some]
    dsimp only
    have hp := classify_pres P ex d t now f s
    have hstc : (classify P ex d t now f s).st.status ≠ Status.ACTIVE := by
      rw [hp.2.2]; exact h
    have hin := applyFeedback_inactive now (classify P ex d t now f s).isError
      (classify P ex d t now f s).localFeedback (classify P ex d t now f s).st hstc
    refine ⟨?_, ?_, fun hW hB => ?_⟩
    · rw [hin.1, hp.1]
    · rw [hin.2.1, hp.2.1]
    · rw [hin.2.2, classify_log_inactive P ex d t now f s h hW hB]

/-- Claim C10, witness: the amended inactive-frame law applied to an
IDLE shoulder-abduction session at a concrete frame. -/
theorem inactive_frame_effect_witness :
    (processLandmarks P0 ExerciseType.SHOULDER_ABDUCTION 60 0 0
        (some zeroFrame) initState).2.scoreR = initState.scoreR ∧
    (processLandmarks P0 ExerciseType.SHOULDER_ABDUCTION 60 0 0
        (some zeroFrame) initState).2.feedbackLog = initState.feedbackLog := by
  have h := inactive_frame_effect P0 ExerciseType.SHOULDER_ABDUCTION 60 0 0
    (some zeroFrame) initState (by decide)
  exact ⟨h.1, h.2.2 (by decide) (by decide)⟩
